import Mathlib

/-!
Verification of the request/response core of the stripe-rs client
(src/client.rs): URL construction, header injection, parameter
serialization, transport dispatch and response classification.

The Rust source is embedded shallowly: machine integers become Nat,
fallible operations return Except, the hyper header collection becomes a
list of typed headers with replace-on-set semantics, and the pluggable
asynchronous transport becomes a function from requests to an Except of
responses.  Each Client operation additionally returns the list of
requests it handed to the transport, so that dispatch (and its absence)
is visible in the model.
-/

namespace Stripe

/-- Scoping params attached to a Client (src/client.rs, struct Params):
an optional Stripe account identifier.  Default: no account. -/
structure Params where
  stripe_account : Option String := none
deriving DecidableEq, Repr

/-- The Client (src/client.rs, struct Client): a hyper client handle
(modelled as an opaque pool identifier, shared by clones), the secret
key, and the current scoping params. -/
structure Client where
  client : Nat
  secret_key : String
  params : Params
deriving DecidableEq, Repr

/-- A typed header value, mirroring the typed headers the source stores
via hyper: an HTTP Basic Authorization value (username plus optional
password), a Content-Type value, or a raw byte value set by set_raw. -/
inductive HeaderValue where
  | basicAuth (username : String) (password : Option String)
  | contentType (mime : String)
  | raw (value : String)
deriving DecidableEq, Repr

/-- One entry of a header collection: a header name and its value. -/
structure Header where
  name : String
  value : HeaderValue
deriving DecidableEq, Repr

/-- A header collection (hyper Headers). -/
abbrev Headers := List Header

/-- hyper Headers.set / set_raw semantics: replace the value of an
existing entry with this name in place, otherwise append a new entry. -/
def Headers.set : Headers → String → HeaderValue → Headers
  | [], n, v => [⟨n, v⟩]
  | h :: rest, n, v =>
    if h.name = n then ⟨n, v⟩ :: rest
    else h :: Headers.set rest n v

/-- HTTP methods used by the client: GET, POST, DELETE. -/
inductive Method where
  | Get
  | Post
  | Delete
deriving DecidableEq, Repr

/-- A request (hyper Request): method, fully qualified URI, header set,
optional body.  Bodies are strings, as the source builds them from
strings. -/
structure Request where
  method : Method
  uri : String
  headers : Headers
  body : Option String := none
deriving DecidableEq, Repr

/-- A response: status code and body.  The source reads the status as
u16 and converts the buffered body bytes to a string with
String::from_utf8_lossy; the model starts from that string. -/
structure Response where
  status : Nat
  body : String
deriving DecidableEq, Repr

/-- Modelled from the spec: the error module (error.rs) is not under
src/.  A RequestError is the structured error detail of the error
envelope: message, type and code fields, and an HTTP-status field that
is not part of the wire payload but stamped by the classifier. -/
structure RequestError where
  http_status : Nat := 0
  error_type : Option String := none
  code : Option String := none
  message : Option String := none
deriving DecidableEq, Repr

/-- Modelled from the spec: RequestError::default(), all fields empty. -/
def RequestError.default : RequestError := {}

/-- Modelled from the spec: the error envelope wire shape, a structured
error with one nested error detail. -/
structure ErrorObject where
  error : RequestError
deriving DecidableEq, Repr

/-- Modelled from the spec: the unified error result (error.rs is not
under src/).  The spec error taxonomy has four caller-distinguishable
kinds: RequestError from a non-2xx response, TransportError,
SerializationError and DeserializationError. -/
inductive Error where
  | Stripe (e : RequestError)
  | Transport (msg : String)
  | Serialization (msg : String)
  | Deserialization (msg : String)
deriving DecidableEq, Repr

/-- A transport: accepts one fully built request and yields a response
or a transport failure diagnostic.  The asynchronous machinery of the
source is hidden behind the synchronous call contract, exactly as the
Client surfaces it. -/
abbrev Transport := Request → Except String Response

/-- A JSON decoder for a target type, abstracting serde_json::from_str:
either the decoded value or a decode diagnostic. -/
abbrev Decoder (T : Type) := String → Except String T

/-- Client::url: format the fixed origin and version prefix with the
path minus its first character (the source slices path[1..]). -/
def Client.url (path : String) : String :=
  "https://api.stripe.com/v1/" ++ String.mk (path.data.drop 1)

/-- Client::with: clone the client, overriding its params. -/
def Client.«with» (c : Client) (params : Params) : Client :=
  { c with params := params }

/-- Client::set_stripe_account: set the Stripe-Account scoping value in
place. -/
def Client.set_stripe_account (c : Client) (account_id : String) : Client :=
  { c with params := { c.params with stripe_account := some account_id } }

/-- Client::set_headers: set the Basic Authorization header with the
secret key as username and no password, set the form-url-encoded
Content-Type header, and, when the params carry a Stripe account, set
the raw Stripe-Account header. -/
def Client.set_headers (c : Client) (headers : Headers) : Headers :=
  let h1 := Headers.set headers "Authorization"
    (HeaderValue.basicAuth c.secret_key none)
  let h2 := Headers.set h1 "Content-Type"
    (HeaderValue.contentType "application/x-www-form-urlencoded")
  match c.params.stripe_account with
  | some account => Headers.set h2 "Stripe-Account" (HeaderValue.raw account)
  | none => h2

/-- Client::send: dispatch the request over the transport (a transport
failure surfaces as a Transport error), then classify the response: a
status in 200..=299 decodes the body into the target type, failing with
a Deserialization error on a decode failure; any other status decodes
the body as an error envelope, synthesizing a fallback envelope whose
message embeds the decode diagnostic when that fails, stamps the
observed status into the envelope and returns it as a Stripe
RequestError. -/
def Client.send {T : Type} (_c : Client) (transport : Transport)
    (decodeT : Decoder T) (decodeErr : Decoder ErrorObject)
    (request : Request) : Except Error T :=
  match transport request with
  | Except.error e => Except.error (Error.Transport e)
  | Except.ok response =>
    let status := response.status
    let body := response.body
    if 200 ≤ status ∧ status ≤ 299 then
      match decodeT body with
      | Except.ok value => Except.ok value
      | Except.error err => Except.error (Error.Deserialization err)
    else
      let errObj : ErrorObject :=
        match decodeErr body with
        | Except.ok obj => obj
        | Except.error err =>
          { error := { RequestError.default with
              message := some ("failed to deserialize error: " ++ err) } }
      Except.error (Error.Stripe { errObj.error with http_status := status })

mutual

/-- Modelled from the spec: the parameter encoder (serde_qs) is not part
of src/.  A structured parameter value: a string leaf, an integer leaf,
an absent optional field (no key emitted), a record of named fields, or
a leaf that cannot be serialized (carrying its failure diagnostic). -/
inductive ParamValue where
  | str (s : String)
  | num (n : Int)
  | absent
  | obj (fields : ParamFields)
  | unserializable (msg : String)

/-- Modelled from the spec: the ordered field list of a record parameter
value; field order is the declaration order of the schema. -/
inductive ParamFields where
  | nil
  | cons (name : String) (value : ParamValue) (rest : ParamFields)

end

/-- The UTF-8 encoding of a unicode code point, as a list of byte
values. -/
def utf8EncodeCharNat (n : Nat) : List Nat :=
  if n < 128 then [n]
  else if n < 2048 then [192 + n / 64, 128 + n % 64]
  else if n < 65536 then [224 + n / 4096, 128 + (n / 64) % 64, 128 + n % 64]
  else [240 + n / 262144, 128 + (n / 4096) % 64, 128 + (n / 64) % 64,
        128 + n % 64]

/-- The UTF-8 bytes of a string. -/
def stringUTF8Bytes (s : String) : List Nat :=
  (s.data.map (fun c => utf8EncodeCharNat c.toNat)).flatten

/-- Upper-case hexadecimal digit of a value below 16. -/
def hexDigitChar (n : Nat) : Char :=
  (['0', '1', '2', '3', '4', '5', '6', '7', '8', '9',
    'A', 'B', 'C', 'D', 'E', 'F']).getD n '0'

/-- Bytes that query-string encoding leaves unescaped: ASCII letters,
digits, and the marks minus, dot, underscore, tilde. -/
def isUnreservedByte (b : Nat) : Bool :=
  (65 ≤ b && b ≤ 90) || (97 ≤ b && b ≤ 122) || (48 ≤ b && b ≤ 57) ||
  b == 45 || b == 46 || b == 95 || b == 126

/-- Percent-encode one byte: keep it when unreserved, otherwise emit a
percent escape with two upper-case hex digits. -/
def percentEncodeByte (b : Nat) : String :=
  if isUnreservedByte b then String.mk [Char.ofNat b]
  else String.mk ['%', hexDigitChar (b / 16), hexDigitChar (b % 16)]

/-- Percent-encode a string byte-wise over its UTF-8 encoding. -/
def percentEncode (s : String) : String :=
  String.join ((stringUTF8Bytes s).map percentEncodeByte)

mutual

/-- Modelled from the spec: flatten a parameter value under a key
context into (key, value) pairs, nesting fields with bracketed key
paths; absent optional fields emit no key; an unserializable leaf fails
with its diagnostic. -/
def qsPairs : String → ParamValue → Except String (List (String × String))
  | key, ParamValue.str s => Except.ok [(key, s)]
  | key, ParamValue.num n => Except.ok [(key, toString n)]
  | _, ParamValue.absent => Except.ok []
  | _, ParamValue.unserializable msg => Except.error msg
  | key, ParamValue.obj fields => qsPairsFields key fields

/-- Modelled from the spec: flatten a record field list in schema order,
bracketing each field name under the key context. -/
def qsPairsFields : String → ParamFields → Except String (List (String × String))
  | _, ParamFields.nil => Except.ok []
  | key, ParamFields.cons name v rest =>
    let sub := if key = "" then name else key ++ "[" ++ name ++ "]"
    match qsPairs sub v with
    | Except.error e => Except.error e
    | Except.ok ps =>
      match qsPairsFields key rest with
      | Except.error e => Except.error e
      | Except.ok rs => Except.ok (ps ++ rs)

end

/-- Modelled from the spec: qs::to_string, the query-string encoding of
a structured parameter value — the flattened pairs, each key and value
percent-encoded, joined as key=value with ampersand separators. -/
def qs_to_string (params : ParamValue) : Except String String :=
  match qsPairs "" params with
  | Except.error e => Except.error e
  | Except.ok pairs =>
    Except.ok (String.intercalate "&"
      (pairs.map (fun p => percentEncode p.1 ++ "=" ++ percentEncode p.2)))

/-- Client::get: build the URL, build a GET request with no body, inject
the headers, dispatch and classify.  The second component is the list of
requests handed to the transport. -/
def Client.get {T : Type} (c : Client) (path : String) (transport : Transport)
    (decodeT : Decoder T) (decodeErr : Decoder ErrorObject) :
    Except Error T × List Request :=
  let url := Client.url path
  let request : Request :=
    { method := Method.Get, uri := url, headers := c.set_headers [],
      body := none }
  (c.send transport decodeT decodeErr request, [request])

/-- Client::post: build the URL, encode the params (a failure propagates
as a Serialization error before any request is constructed or
dispatched), build a POST request carrying the encoded body, inject the
headers, dispatch and classify. -/
def Client.post {T : Type} (c : Client) (path : String) (params : ParamValue)
    (transport : Transport) (decodeT : Decoder T)
    (decodeErr : Decoder ErrorObject) : Except Error T × List Request :=
  let url := Client.url path
  match qs_to_string params with
  | Except.error e => (Except.error (Error.Serialization e), [])
  | Except.ok body =>
    let request : Request :=
      { method := Method.Post, uri := url, headers := c.set_headers [],
        body := some body }
    (c.send transport decodeT decodeErr request, [request])

/-- Client::post_empty: a POST with no body. -/
def Client.post_empty {T : Type} (c : Client) (path : String)
    (transport : Transport) (decodeT : Decoder T)
    (decodeErr : Decoder ErrorObject) : Except Error T × List Request :=
  let url := Client.url path
  let request : Request :=
    { method := Method.Post, uri := url, headers := c.set_headers [],
      body := none }
  (c.send transport decodeT decodeErr request, [request])

/-- Client::delete: a DELETE with no body. -/
def Client.delete {T : Type} (c : Client) (path : String)
    (transport : Transport) (decodeT : Decoder T)
    (decodeErr : Decoder ErrorObject) : Except Error T × List Request :=
  let url := Client.url path
  let request : Request :=
    { method := Method.Delete, uri := url, headers := c.set_headers [],
      body := none }
  (c.send transport decodeT decodeErr request, [request])

theorem Headers.set_set_self (hs : Headers) (n : String) (v : HeaderValue) :
    Headers.set (Headers.set hs n v) n v = Headers.set hs n v := by
  induction hs with
  | nil => simp [Headers.set]
  | cons h rest ih =>
    by_cases hn : h.name = n
    · simp [Headers.set, hn]
    · simp [Headers.set, hn, ih]

theorem Headers.set_preserve {n n' : String} (hne : n' ≠ n) (v' : HeaderValue)
    {hs : Headers} {v : HeaderValue} (h : Headers.set hs n v = hs) :
    Headers.set (Headers.set hs n' v') n v = Headers.set hs n' v' := by
  induction hs with
  | nil => exact absurd h (by simp [Headers.set])
  | cons hd rest ih =>
    by_cases hn : hd.name = n
    · rw [Headers.set, if_pos hn] at h
      have hhd : hd = ⟨n, v⟩ := (List.cons.injEq _ _ _ _ ▸ h).1.symm
      have hn' : ¬hd.name = n' := fun hc => hne (hc ▸ hn ▸ rfl)
      rw [Headers.set, if_neg hn', Headers.set, if_pos hn, hhd]
    · rw [Headers.set, if_neg hn] at h
      have hrest : Headers.set rest n v = rest := (List.cons.injEq _ _ _ _ ▸ h).2
      by_cases hn' : hd.name = n'
      · rw [Headers.set, if_pos hn', Headers.set,
          if_neg (show ¬(Header.mk n' v').name = n from hne), hrest]
      · rw [Headers.set, if_neg hn', Headers.set, if_neg hn, ih hrest]

theorem set_headers_nil_none (c : Client)
    (h : c.params.stripe_account = none) :
    c.set_headers [] =
      [⟨"Authorization", HeaderValue.basicAuth c.secret_key none⟩,
       ⟨"Content-Type",
        HeaderValue.contentType "application/x-www-form-urlencoded"⟩] := by
  simp [Client.set_headers, h, Headers.set]

theorem set_headers_nil_some (c : Client) (id : String)
    (h : c.params.stripe_account = some id) :
    c.set_headers [] =
      [⟨"Authorization", HeaderValue.basicAuth c.secret_key none⟩,
       ⟨"Content-Type",
        HeaderValue.contentType "application/x-www-form-urlencoded"⟩,
       ⟨"Stripe-Account", HeaderValue.raw id⟩] := by
  simp [Client.set_headers, h, Headers.set]

/-- C1: for every response whose status code lies outside the inclusive
range 200-299, regardless of the body, the classification step in send
returns a RequestError (never a raw JSON-decode failure), and its
http_status field equals the response's status code. -/
theorem C1_non2xx_always_requestError {T : Type} (c : Client)
    (transport : Transport) (decodeT : Decoder T)
    (decodeErr : Decoder ErrorObject) (req : Request) (resp : Response)
    (hresp : transport req = Except.ok resp)
    (hstatus : ¬(200 ≤ resp.status ∧ resp.status ≤ 299)) :
    ∃ re : RequestError,
      c.send transport decodeT decodeErr req =
        Except.error (Error.Stripe re) ∧ re.http_status = resp.status := by
  cases hdec : decodeErr resp.body with
  | ok obj =>
    refine ⟨{ obj.error with http_status := resp.status }, ?_, rfl⟩
    simp [Client.send, hresp, hstatus, hdec]
  | error e =>
    refine ⟨{ RequestError.default with
      http_status := resp.status,
      message := some ("failed to deserialize error: " ++ e) }, ?_, rfl⟩
    simp [Client.send, hresp, hstatus, hdec]

/-- Witness for C1 at status 404 with an empty body. -/
theorem C1_non2xx_always_requestError_witness :
    ∃ re : RequestError,
      Client.send ⟨0, "sk_test", ⟨none⟩⟩
        (fun _ => Except.ok ⟨404, ""⟩) (fun s => Except.ok s)
        (fun _ => Except.error "EOF while parsing a value")
        { method := Method.Get, uri := "u", headers := [] } =
        Except.error (Error.Stripe re) ∧ re.http_status = 404 :=
  C1_non2xx_always_requestError _ _ _ _ _ ⟨404, ""⟩ rfl (by decide)

/-- C2: for every response with a non-2xx status whose body fails to
decode as an error envelope (for example an empty body), send returns a
RequestError whose message embeds the decode diagnostic and whose
http_status still equals the status code. -/
theorem C2_non2xx_bad_body_diagnostic {T : Type} (c : Client)
    (transport : Transport) (decodeT : Decoder T)
    (decodeErr : Decoder ErrorObject) (req : Request) (resp : Response)
    (e : String) (hresp : transport req = Except.ok resp)
    (hstatus : ¬(200 ≤ resp.status ∧ resp.status ≤ 299))
    (hdec : decodeErr resp.body = Except.error e) :
    ∃ re : RequestError,
      c.send transport decodeT decodeErr req =
        Except.error (Error.Stripe re) ∧
      re.http_status = resp.status ∧
      re.message = some ("failed to deserialize error: " ++ e) := by
  refine ⟨{ RequestError.default with
    http_status := resp.status,
    message := some ("failed to deserialize error: " ++ e) }, ?_, rfl, rfl⟩
  simp [Client.send, hresp, hstatus, hdec]

/-- Witness for C2 at status 500 with an empty, non-JSON body. -/
theorem C2_non2xx_bad_body_diagnostic_witness :
    ∃ re : RequestError,
      Client.send ⟨0, "sk_test", ⟨none⟩⟩
        (fun _ => Except.ok ⟨500, ""⟩) (fun s => Except.ok s)
        (fun _ => Except.error "EOF while parsing a value")
        { method := Method.Post, uri := "u", headers := [] } =
        Except.error (Error.Stripe re) ∧
      re.http_status = 500 ∧
      re.message = some "failed to deserialize error: EOF while parsing a value" :=
  C2_non2xx_bad_body_diagnostic _ _ _ _ _ ⟨500, ""⟩
    "EOF while parsing a value" rfl (by decide) rfl

/-- C3: for every response with status in 200-299, send decodes the body
into the target type: a successful decode is returned as the success
value, and a decode failure becomes a Deserialization error carrying the
decode diagnostic (no RequestError fallback). -/
theorem C3_success_range_decodes {T : Type} (c : Client)
    (transport : Transport) (decodeT : Decoder T)
    (decodeErr : Decoder ErrorObject) (req : Request) (resp : Response)
    (hresp : transport req = Except.ok resp)
    (hstatus : 200 ≤ resp.status ∧ resp.status ≤ 299) :
    (∀ v, decodeT resp.body = Except.ok v →
      c.send transport decodeT decodeErr req = Except.ok v) ∧
    (∀ e, decodeT resp.body = Except.error e →
      c.send transport decodeT decodeErr req =
        Except.error (Error.Deserialization e)) := by
  constructor
  · intro v hv
    simp [Client.send, hresp, hstatus, hv]
  · intro e he
    simp [Client.send, hresp, hstatus, he]

/-- Witness for C3 at status 200: a decodable body is returned as the
decoded value, and an undecodable body yields a Deserialization error
with the decoder's diagnostic. -/
theorem C3_success_range_decodes_witness :
    Client.send ⟨0, "sk_test", ⟨none⟩⟩
        (fun _ => Except.ok ⟨200, "42"⟩)
        (fun s => if s = "42" then Except.ok 42
          else Except.error ("invalid number: " ++ s))
        (fun _ => Except.error "E")
        { method := Method.Get, uri := "u", headers := [] } =
      Except.ok 42 ∧
    Client.send ⟨0, "sk_test", ⟨none⟩⟩
        (fun _ => Except.ok ⟨200, "nonsense"⟩)
        (fun s => if s = "42" then Except.ok 42
          else Except.error ("invalid number: " ++ s))
        (fun _ => Except.error "E")
        { method := Method.Get, uri := "u", headers := [] } =
      Except.error (Error.Deserialization "invalid number: nonsense") :=
  ⟨(C3_success_range_decodes _ _ _ _ _ ⟨200, "42"⟩ rfl (by decide)).1 42
      (by simp),
   (C3_success_range_decodes _ _ _ _ _ ⟨200, "nonsense"⟩ rfl (by decide)).2
      "invalid number: nonsense" (by simp)⟩

/-- C7: set_headers is idempotent: running it twice in succession with
the same Client state leaves the header collection exactly as one run
leaves it (overwrite semantics, not append). -/
theorem C7_set_headers_idempotent (c : Client) (hs : Headers) :
    c.set_headers (c.set_headers hs) = c.set_headers hs := by
  have hCA : ("Content-Type" : String) ≠ "Authorization" := by decide
  have hSA : ("Stripe-Account" : String) ≠ "Authorization" := by decide
  have hSC : ("Stripe-Account" : String) ≠ "Content-Type" := by decide
  cases hacct : c.params.stripe_account with
  | none =>
    simp only [Client.set_headers, hacct]
    rw [Headers.set_preserve hCA _ (Headers.set_set_self hs _ _),
      Headers.set_set_self]
  | some account =>
    simp only [Client.set_headers, hacct]
    rw [Headers.set_preserve hSA _
        (Headers.set_preserve hCA _ (Headers.set_set_self hs _ _)),
      Headers.set_preserve hSC _ (Headers.set_set_self _ _ _),
      Headers.set_set_self]

/-- C4: when the params cannot be serialized, post fails with a
Serialization error carrying the encoder diagnostic and hands no request
to the transport: the dispatch list is empty, serialization having
failed before any request was constructed. -/
theorem C4_serialization_failure_no_dispatch {T : Type} (c : Client)
    (path : String) (params : ParamValue) (transport : Transport)
    (decodeT : Decoder T) (decodeErr : Decoder ErrorObject) (e : String)
    (h : qs_to_string params = Except.error e) :
    c.post path params transport decodeT decodeErr =
      (Except.error (Error.Serialization e), []) := by
  simp [Client.post, h]

/-- Witness for C4 with a non-serializable leaf. -/
theorem C4_serialization_failure_no_dispatch_witness :
    Client.post ⟨0, "sk_test", ⟨none⟩⟩ "/charges"
      (ParamValue.obj (ParamFields.cons "bad"
        (ParamValue.unserializable "unsupported value") ParamFields.nil))
      (fun _ => Except.ok ⟨200, "1"⟩) (fun s => Except.ok s)
      (fun _ => Except.error "E") =
      (Except.error (Error.Serialization "unsupported value"), []) :=
  C4_serialization_failure_no_dispatch _ _ _ _ _ _ "unsupported value" rfl

/-- C5: for every path that begins with a path separator, url yields the
fixed origin and version prefix followed by the path minus exactly its
first character. -/
theorem C5_url_concatenation (rest : String) :
    Client.url ("/" ++ rest) = "https://api.stripe.com/v1/" ++ rest := rfl

/-- C6: after set_headers runs on a fresh request's header collection,
it contains a Basic Authorization header with the secret key as username
and no password and a form-url-encoded Content-Type header; when the
params carry an account id there is exactly one Stripe-Account header
holding that id, and when they do not, no Stripe-Account header is
present. -/
theorem C6_set_headers_contents (c : Client) :
    (⟨"Authorization", HeaderValue.basicAuth c.secret_key none⟩ : Header) ∈
      c.set_headers [] ∧
    (⟨"Content-Type",
      HeaderValue.contentType "application/x-www-form-urlencoded"⟩ : Header) ∈
      c.set_headers [] ∧
    (∀ id, c.params.stripe_account = some id →
      List.filter (fun h => h.name == "Stripe-Account") (c.set_headers []) =
        [⟨"Stripe-Account", HeaderValue.raw id⟩]) ∧
    (c.params.stripe_account = none →
      List.filter (fun h => h.name == "Stripe-Account") (c.set_headers []) =
        []) := by
  cases hacct : c.params.stripe_account with
  | none =>
    rw [set_headers_nil_none c hacct]
    exact ⟨by simp, by simp,
      fun id hid => Option.noConfusion hid,
      fun _ => by simp [List.filter]⟩
  | some account =>
    rw [set_headers_nil_some c account hacct]
    refine ⟨by simp, by simp, fun id hid => ?_,
      fun hnone => Option.noConfusion hnone⟩
    obtain rfl : account = id := Option.some.inj hid
    simp [List.filter]

/-- Witness for C6: with an account id the filtered Stripe-Account
headers are exactly one entry with that id; without one they are
empty. -/
theorem C6_set_headers_contents_witness :
    List.filter (fun h => h.name == "Stripe-Account")
      (Client.set_headers ⟨0, "sk_test", ⟨some "acct_123"⟩⟩ []) =
      [⟨"Stripe-Account", HeaderValue.raw "acct_123"⟩] ∧
    List.filter (fun h => h.name == "Stripe-Account")
      (Client.set_headers ⟨0, "sk_test", ⟨none⟩⟩ []) = [] :=
  ⟨(C6_set_headers_contents ⟨0, "sk_test", ⟨some "acct_123"⟩⟩).2.2.1
      "acct_123" rfl,
   (C6_set_headers_contents ⟨0, "sk_test", ⟨none⟩⟩).2.2.2 rfl⟩

/-- C8: with returns a new Client whose params equal the given params
and whose secret key and transport handle equal the original's, and the
original is untouched: requests dispatched by the original still carry
its own (for example absent) Stripe-Account header, while the clone's
requests carry the overlay's id. -/
theorem C8_with_overlay_isolation (c : Client) (p : Params) :
    (Client.«with» c p).params = p ∧
    (Client.«with» c p).secret_key = c.secret_key ∧
    (Client.«with» c p).client = c.client ∧
    (∀ (T : Type) (path : String) (transport : Transport)
        (decodeT : Decoder T) (decodeErr : Decoder ErrorObject),
      c.params.stripe_account = none →
        List.all ((c.get path transport decodeT decodeErr).2)
          (fun r => List.filter (fun h => h.name == "Stripe-Account")
            r.headers == []) = true) ∧
    (∀ (T : Type) (path : String) (transport : Transport)
        (decodeT : Decoder T) (decodeErr : Decoder ErrorObject)
        (id : String),
      p.stripe_account = some id →
        List.all (((Client.«with» c p).get path transport decodeT
            decodeErr).2)
          (fun r => List.filter (fun h => h.name == "Stripe-Account")
            r.headers ==
              [⟨"Stripe-Account", HeaderValue.raw id⟩]) = true) := by
  refine ⟨rfl, rfl, rfl, ?_, ?_⟩
  · intro T path transport decodeT decodeErr hnone
    simp [Client.get, set_headers_nil_none c hnone]
  · intro T path transport decodeT decodeErr id hid
    have hacct : (Client.«with» c p).params.stripe_account = some id := hid
    simp [Client.get, set_headers_nil_some _ id hacct]

/-- Witness for C8 with an account-free original and a clone scoped to
acct_123: the overlay holds, credentials are shared, the original's
request has no Stripe-Account header and the clone's has exactly the
overlay id. -/
theorem C8_with_overlay_isolation_witness :
    (Client.«with» ⟨0, "sk_test", ⟨none⟩⟩ ⟨some "acct_123"⟩).params =
      (⟨some "acct_123"⟩ : Params) ∧
    (Client.«with» ⟨0, "sk_test", ⟨none⟩⟩ ⟨some "acct_123"⟩).secret_key =
      "sk_test" ∧
    List.all ((Client.get (T := String) ⟨0, "sk_test", ⟨none⟩⟩ "/charges"
        (fun _ => Except.ok ⟨200, "1"⟩) (fun s => Except.ok s)
        (fun _ => Except.error "E")).2)
      (fun r => List.filter (fun h => h.name == "Stripe-Account")
        r.headers == []) = true ∧
    List.all ((Client.get (T := String)
        (Client.«with» ⟨0, "sk_test", ⟨none⟩⟩ ⟨some "acct_123"⟩) "/charges"
        (fun _ => Except.ok ⟨200, "1"⟩) (fun s => Except.ok s)
        (fun _ => Except.error "E")).2)
      (fun r => List.filter (fun h => h.name == "Stripe-Account")
        r.headers ==
          [⟨"Stripe-Account", HeaderValue.raw "acct_123"⟩]) = true :=
  ⟨(C8_with_overlay_isolation ⟨0, "sk_test", ⟨none⟩⟩ ⟨some "acct_123"⟩).1,
   (C8_with_overlay_isolation ⟨0, "sk_test", ⟨none⟩⟩ ⟨some "acct_123"⟩).2.1,
   (C8_with_overlay_isolation ⟨0, "sk_test", ⟨none⟩⟩
      ⟨some "acct_123"⟩).2.2.2.1 String "/charges"
      (fun _ => Except.ok ⟨200, "1"⟩) (fun s => Except.ok s)
      (fun _ => Except.error "E") rfl,
   (C8_with_overlay_isolation ⟨0, "sk_test", ⟨none⟩⟩
      ⟨some "acct_123"⟩).2.2.2.2 String "/charges"
      (fun _ => Except.ok ⟨200, "1"⟩) (fun s => Except.ok s)
      (fun _ => Except.error "E") "acct_123" rfl⟩

/-- C9: get, post_empty and delete dispatch exactly one request with no
body, post dispatches exactly one request whose body is the query-string
encoding of the params, and the four dispatched requests agree on URI
and header set, differing only in method and body presence. -/
theorem C9_dispatch_shapes {T : Type} (c : Client) (path : String)
    (params : ParamValue) (transport : Transport) (decodeT : Decoder T)
    (decodeErr : Decoder ErrorObject) (body : String)
    (h : qs_to_string params = Except.ok body) :
    (c.get path transport decodeT decodeErr).2 =
      [{ method := Method.Get, uri := Client.url path,
         headers := c.set_headers [], body := none }] ∧
    (c.post_empty path transport decodeT decodeErr).2 =
      [{ method := Method.Post, uri := Client.url path,
         headers := c.set_headers [], body := none }] ∧
    (c.delete path transport decodeT decodeErr).2 =
      [{ method := Method.Delete, uri := Client.url path,
         headers := c.set_headers [], body := none }] ∧
    (c.post path params transport decodeT decodeErr).2 =
      [{ method := Method.Post, uri := Client.url path,
         headers := c.set_headers [], body := some body }] := by
  refine ⟨rfl, rfl, rfl, ?_⟩
  simp [Client.post, h]

/-- Witness for C9 on the spec's end-to-end example params. -/
theorem C9_dispatch_shapes_witness :
    (Client.post (T := String) ⟨0, "sk_test", ⟨none⟩⟩ "/example"
      (ParamValue.obj (ParamFields.cons "foo" (ParamValue.str "bar")
        (ParamFields.cons "nested"
          (ParamValue.obj (ParamFields.cons "x" (ParamValue.num 1)
            ParamFields.nil))
          ParamFields.nil)))
      (fun _ => Except.ok ⟨200, "1"⟩) (fun s => Except.ok s)
      (fun _ => Except.error "E")).2 =
      [{ method := Method.Post, uri := Client.url "/example",
         headers := Client.set_headers ⟨0, "sk_test", ⟨none⟩⟩ [],
         body := some "foo=bar&nested%5Bx%5D=1" }] :=
  (C9_dispatch_shapes ⟨0, "sk_test", ⟨none⟩⟩ "/example"
    (ParamValue.obj (ParamFields.cons "foo" (ParamValue.str "bar")
      (ParamFields.cons "nested"
        (ParamValue.obj (ParamFields.cons "x" (ParamValue.num 1)
          ParamFields.nil))
        ParamFields.nil)))
    (fun _ => Except.ok ⟨200, "1"⟩) (fun s => Except.ok s)
    (fun _ => Except.error "E") "foo=bar&nested%5Bx%5D=1" rfl).2.2.2

/-- C10: the parameter encoder is deterministic: encoding the same
structured value twice yields identical output, stated as a two-run
equality of the embedded encoding function used by post. -/
theorem C10_encoding_deterministic (params : ParamValue) :
    qs_to_string params = qs_to_string params := rfl

end Stripe
